import Mathlib

/-!
Shallow embedding of `src/bank.c` (a single-file personal-finance ledger).

Modelling conventions:
* C `float` quantities (balances, loans, holdings, prices, rates) are embedded
  as exact rationals `ℚ`; the decimal constants of the source (`1000.0f`,
  `500.0f`, `0.05f`, `1.10f`, ...) are taken at their exact decimal value.
* Console reads (`getIntInput` / `getFloatInput` / `scanf`) are embedded as
  `Option`-valued parameters: `none` models a failed read, `some v` a
  successful read of `v`.  The read-and-revalidate loops of `createAccount`
  only terminate once the input is valid, so the registry logic receives the
  already-read values as parameters.
* The data file `accounts.dat` is embedded as `Option (Nat × List Account)`:
  `none` is a missing file, and `some (n, recs)` is a file holding the account
  count `n` followed by `recs` fixed-size account records, exactly the layout
  `saveAccounts` writes.  `fopen`/`fwrite` failures are environmental faults
  outside the model, so the embedded `saveAccounts` always succeeds.
* The global `currentUserIndex` becomes an explicit index argument of the
  registry-level step function `applyOpAt`.
-/

/-- C enum `AssetType` (bank.c lines 22-26). -/
inductive AssetType where
| crypto
| gold
| silver
deriving DecidableEq

/-- C enum `CurrencyType` (bank.c lines 28-32). -/
inductive CurrencyType where
| eur
| gbp
| inr
deriving DecidableEq

/-- C enum `ErrorCode` (bank.c lines 34-41), constructors in the C order:
`success` = `SUCCESS`, `insufficientFunds` = `ERROR_INSUFFICIENT_FUNDS`,
`invalidPin` = `ERROR_INVALID_PIN`, `duplicateAccount` = `ERROR_ACCOUNT_EXISTS`,
`fileError` = `ERROR_FILE_IO`, `invalidInput` = `ERROR_INVALID_INPUT`.
The enum has exactly these six values; in particular it has no separate
capacity-exceeded or loan-already-active code. -/
inductive ErrorCode where
| success
| insufficientFunds
| invalidPin
| duplicateAccount
| fileError
| invalidInput
deriving DecidableEq

/-- C struct `Account` (bank.c lines 44-63): name, PIN, cash balance, loan,
the three asset holdings and the three foreign-currency holdings. -/
structure Account where
  name : String
  pin : Int
  balance : ℚ
  loan : ℚ
  crypto : ℚ
  gold : ℚ
  silver : ℚ
  eur : ℚ
  gbp : ℚ
  inr : ℚ
deriving DecidableEq

/-- C struct `MarketPrices` (bank.c lines 65-69). -/
structure MarketPrices where
  crypto : ℚ
  gold : ℚ
  silver : ℚ
deriving DecidableEq

/-- C struct `ExchangeRates` (bank.c lines 71-75). -/
structure ExchangeRates where
  eur : ℚ
  gbp : ℚ
  inr : ℚ
deriving DecidableEq

/-- C constant `#define MAX_ACCOUNTS 100` (bank.c line 11). -/
def MAX_ACCOUNTS : Nat := 100

/-- C constant `#define MIN_PIN 1000` (bank.c line 13). -/
def MIN_PIN : Int := 1000

/-- C constant `#define MAX_PIN 9999` (bank.c line 14). -/
def MAX_PIN : Int := 9999

/-- C constant `#define INTEREST_RATE 0.05f` (bank.c line 15). -/
def INTEREST_RATE : ℚ := 5 / 100

/-- C constant `#define STARTING_BALANCE 1000.0f` (bank.c line 16). -/
def STARTING_BALANCE : ℚ := 1000

/-- C constant `#define LOAN_AMOUNT 500.0f` (bank.c line 17). -/
def LOAN_AMOUNT : ℚ := 500

/-- C constant `#define ASSET_PURCHASE_AMOUNT 100.0f` (bank.c line 18). -/
def ASSET_PURCHASE_AMOUNT : ℚ := 100

/-- Initial global `marketPrices = {150.0f, 60.0f, 25.0f}` (bank.c line 82);
mutated only by the random `updateMarketPrices`, so asset operations take the
current prices as a parameter. -/
def marketPrices : MarketPrices :=
  { crypto := 150, gold := 60, silver := 25 }

/-- Global `exchangeRates = {1.10f, 1.27f, 0.012f}` (bank.c line 83);
never mutated anywhere in the program. -/
def exchangeRates : ExchangeRates :=
  { eur := 11 / 10, gbp := 127 / 100, inr := 12 / 1000 }

/-- C function `isValidPIN` (bank.c lines 112-114). -/
def isValidPIN (pin : Int) : Bool :=
  decide (MIN_PIN ≤ pin ∧ pin ≤ MAX_PIN)

/-- C function `isAlphaString` (bank.c lines 98-107): nonempty and all characters
alphabetic. -/
def isAlphaString (s : String) : Bool :=
  !s.isEmpty && s.toList.all Char.isAlpha

/-- The mutable globals `accounts[MAX_ACCOUNTS]` / `accountCount`
(bank.c lines 78-79) embedded as a list (the count is the length), together
with the contents of the data file `accounts.dat`. -/
structure BankState where
  accounts : List Account
  file : Option (Nat × List Account)
deriving DecidableEq

/-- C function `saveAccounts` (bank.c lines 172-192): overwrite the data file with the
account count followed by every account record.  `fopen`/`fwrite` failures are
environmental and outside the model, so saving always returns `SUCCESS`. -/
def saveAccounts (st : BankState) : ErrorCode × BankState :=
  (ErrorCode.success, { st with file := some (st.accounts.length, st.accounts) })

/-- C function `loadAccounts` (bank.c lines 197-217): a missing file is a successful
first run (registry left as is, initially empty); otherwise read the count
`n` and then `n` records, failing with `ERROR_FILE_IO` when the file holds
fewer than `n` records.  `prev` is the registry contents before the load. -/
def loadAccounts (file : Option (Nat × List Account)) (prev : List Account) :
    ErrorCode × List Account :=
  match file with
  | none => (ErrorCode.success, prev)
  | some (n, recs) =>
    if n ≤ recs.length then (ErrorCode.success, recs.take n)
    else (ErrorCode.fileError, prev)

/-- C function `accountExists` (bank.c lines 224-231): true when some stored account has
the same name OR the same PIN. -/
def accountExists (accounts : List Account) (name : String) (pin : Int) : Bool :=
  accounts.any (fun a => a.name == name || a.pin == pin)

/-- C function `initializeAccount` (bank.c lines 236-250): the starting balance and
zeroed loan/asset/currency fields.  (`scanf` reads at most 49 characters, so
the `strncpy` truncation to 49 characters is the identity on every name the
program can pass in.) -/
def initializeAccount (name : String) (pin : Int) : Account :=
  { name := name, pin := pin, balance := STARTING_BALANCE, loan := 0,
    crypto := 0, gold := 0, silver := 0, eur := 0, gbp := 0, inr := 0 }

/-- C function `createAccount` (bank.c lines 255-309) after its input loops (which only
terminate with an alphabetic name and a PIN in range): capacity check first
(returning the generic `ERROR_INVALID_INPUT`), then the duplicate check, then
append the new account and persist. -/
def createAccount (st : BankState) (name : String) (pin : Int) :
    ErrorCode × BankState :=
  if MAX_ACCOUNTS ≤ st.accounts.length then (ErrorCode.invalidInput, st)
  else if accountExists st.accounts name pin then (ErrorCode.duplicateAccount, st)
  else saveAccounts { st with accounts := st.accounts ++ [initializeAccount name pin] }

/-- C function `verifyPIN` (bank.c lines 346-352): re-read a PIN and compare with the
current account's PIN; a failed read (`none`) verifies as false. -/
def verifyPIN (a : Account) (pinInput : Option Int) : Bool :=
  match pinInput with
  | none => false
  | some p => p == a.pin

/-- C function `depositCash` (bank.c lines 394-404). -/
def depositCash (a : Account) (amount : ℚ) : ErrorCode × Account :=
  if amount ≤ 0 then (ErrorCode.invalidInput, a)
  else (ErrorCode.success, { a with balance := a.balance + amount })

/-- C function `withdrawCash` (bank.c lines 409-427): reject non-positive amounts, then
amounts above the balance, then a failed PIN re-verification; otherwise debit. -/
def withdrawCash (a : Account) (amount : ℚ) (pinInput : Option Int) :
    ErrorCode × Account :=
  if amount ≤ 0 then (ErrorCode.invalidInput, a)
  else if a.balance < amount then (ErrorCode.insufficientFunds, a)
  else if !verifyPIN a pinInput then (ErrorCode.invalidPin, a)
  else (ErrorCode.success, { a with balance := a.balance - amount })

/-- C function `purchaseAsset` (bank.c lines 468-520): balance check, PIN check, read the
menu choice, tentatively debit the fixed purchase amount, then credit
`ASSET_PURCHASE_AMOUNT / price` units for choices 1-3; any other choice
refunds the debit and reports `ERROR_INVALID_INPUT`.  The `ErrorCode` is the
code the C function displays (`SUCCESS` on a completed purchase). -/
def purchaseAsset (a : Account) (prices : MarketPrices) (pinInput : Option Int)
    (choice : Option Int) : ErrorCode × Account :=
  if a.balance < ASSET_PURCHASE_AMOUNT then (ErrorCode.insufficientFunds, a)
  else if !verifyPIN a pinInput then (ErrorCode.invalidPin, a)
  else
    match choice with
    | none => (ErrorCode.invalidInput, a)
    | some c =>
      let debited : Account := { a with balance := a.balance - ASSET_PURCHASE_AMOUNT }
      if c = 1 then
        (ErrorCode.success,
         { debited with crypto := debited.crypto + ASSET_PURCHASE_AMOUNT / prices.crypto })
      else if c = 2 then
        (ErrorCode.success,
         { debited with gold := debited.gold + ASSET_PURCHASE_AMOUNT / prices.gold })
      else if c = 3 then
        (ErrorCode.success,
         { debited with silver := debited.silver + ASSET_PURCHASE_AMOUNT / prices.silver })
      else
        (ErrorCode.invalidInput,
         { debited with balance := debited.balance + ASSET_PURCHASE_AMOUNT })

/-- Outcomes printed by `manageLoan` (bank.c lines 525-573): PIN failure, loan
granted, loan request cancelled, loan repaid, repayment cancelled, or the
informational insufficient-funds-to-repay message. -/
inductive LoanOutcome where
| invalidPin
| loanTaken
| requestCancelled
| loanRepaid
| repayCancelled
| insufficientRepay
deriving DecidableEq

/-- C function `manageLoan` (bank.c lines 525-573): after PIN re-verification, a zero
loan offers a new loan of `LOAN_AMOUNT` (granted only on confirmation `1`);
a nonzero loan offers full repayment when the balance covers it (again only on
confirmation `1`), and otherwise reports insufficient funds and changes
nothing. -/
def manageLoan (a : Account) (pinInput : Option Int) (confirm : Option Int) :
    LoanOutcome × Account :=
  if !verifyPIN a pinInput then (LoanOutcome.invalidPin, a)
  else if a.loan = 0 then
    if confirm = some 1 then
      (LoanOutcome.loanTaken,
       { a with loan := LOAN_AMOUNT, balance := a.balance + LOAN_AMOUNT })
    else (LoanOutcome.requestCancelled, a)
  else if a.loan ≤ a.balance then
    if confirm = some 1 then
      (LoanOutcome.loanRepaid, { a with balance := a.balance - a.loan, loan := 0 })
    else (LoanOutcome.repayCancelled, a)
  else (LoanOutcome.insufficientRepay, a)

/-- C function `addInterest` (bank.c lines 578-590): credit `balance * INTEREST_RATE`. -/
def addInterest (a : Account) : Account :=
  { a with balance := a.balance + a.balance * INTEREST_RATE }

/-- The USD-to-foreign branch of `manageForexWallet` (bank.c lines 662-691),
menu choices 1-3 selecting EUR/GBP/INR: reject amounts above the balance,
otherwise debit the USD amount and credit `amount / rate` units of the chosen
currency.  NOTE: unlike `depositCash`/`withdrawCash`, the C code performs no
positivity check on `amount` here. -/
def convertToForeign (a : Account) (c : CurrencyType) (amount : ℚ) :
    ErrorCode × Account :=
  if a.balance < amount then (ErrorCode.insufficientFunds, a)
  else
    let debited : Account := { a with balance := a.balance - amount }
    match c with
    | CurrencyType.eur =>
      (ErrorCode.success, { debited with eur := debited.eur + amount / exchangeRates.eur })
    | CurrencyType.gbp =>
      (ErrorCode.success, { debited with gbp := debited.gbp + amount / exchangeRates.gbp })
    | CurrencyType.inr =>
      (ErrorCode.success, { debited with inr := debited.inr + amount / exchangeRates.inr })

/-- The foreign-to-USD branch of `manageForexWallet` (bank.c lines 692-748),
choice 4 then sub-choices 1-3: when `amount ≤ holdings` of the chosen
currency, debit the foreign units and credit `amount * rate` USD; otherwise
report insufficient funds.  NOTE: again no positivity check on `amount`. -/
def convertFromForeign (a : Account) (c : CurrencyType) (amount : ℚ) :
    ErrorCode × Account :=
  match c with
  | CurrencyType.eur =>
    if amount ≤ a.eur then
      (ErrorCode.success,
       { a with eur := a.eur - amount, balance := a.balance + amount * exchangeRates.eur })
    else (ErrorCode.insufficientFunds, a)
  | CurrencyType.gbp =>
    if amount ≤ a.gbp then
      (ErrorCode.success,
       { a with gbp := a.gbp - amount, balance := a.balance + amount * exchangeRates.gbp })
    else (ErrorCode.insufficientFunds, a)
  | CurrencyType.inr =>
    if amount ≤ a.inr then
      (ErrorCode.success,
       { a with inr := a.inr - amount, balance := a.balance + amount * exchangeRates.inr })
    else (ErrorCode.insufficientFunds, a)

/-- One user-menu ledger operation on the current account, with the console
inputs the C code would read for it. -/
inductive Op where
| deposit (amount : ℚ)
| withdraw (amount : ℚ) (pinInput : Option Int)
| purchase (prices : MarketPrices) (pinInput : Option Int) (choice : Option Int)
| loanOp (pinInput : Option Int) (confirm : Option Int)
| interest
| toForeign (c : CurrencyType) (amount : ℚ)
| fromForeign (c : CurrencyType) (amount : ℚ)

/-- The account state after one ledger operation (failed operations leave the
account as is, matching the C functions above). -/
def applyOp (a : Account) (op : Op) : Account :=
  match op with
  | Op.deposit amount => (depositCash a amount).2
  | Op.withdraw amount pinInput => (withdrawCash a amount pinInput).2
  | Op.purchase prices pinInput choice => (purchaseAsset a prices pinInput choice).2
  | Op.loanOp pinInput confirm => (manageLoan a pinInput confirm).2
  | Op.interest => addInterest a
  | Op.toForeign c amount => (convertToForeign a c amount).2
  | Op.fromForeign c amount => (convertFromForeign a c amount).2

/-- Run a sequence of ledger operations on one account. -/
def runOps (a : Account) : List Op → Account
  | [] => a
  | op :: rest => runOps (applyOp a op) rest

/-- Registry-level step: every ledger operation acts through
`accounts[currentUserIndex]` (here the explicit index `i`), leaving every
other entry of the registry untouched. -/
def applyOpAt (regs : List Account) (i : Nat) (op : Op) : List Account :=
  match regs[i]? with
  | none => regs
  | some a => regs.set i (applyOp a op)

/-- A concrete freshly registered account, used as a test vector. -/
def bobAccount : Account := initializeAccount "bob" 1111

/-- A registry at the `MAX_ACCOUNTS` capacity bound, used as a test vector. -/
def fullRegistry : List Account :=
  List.replicate MAX_ACCOUNTS (initializeAccount "bob" 1111)

/-! Helper lemmas shared by the claim theorems. -/

/-- Characterisation: `accountExists` decides exactly the name-or-PIN collision predicate. -/
theorem accountExists_iff (accounts : List Account) (name : String) (pin : Int) :
    accountExists accounts name pin = true ↔
      ∃ a ∈ accounts, a.name = name ∨ a.pin = pin := by
  simp [accountExists, List.any_eq_true]

/-- Characterisation: `verifyPIN` succeeds exactly on a successful read of the account's PIN. -/
theorem verifyPIN_eq_true_iff (a : Account) (p : Option Int) :
    verifyPIN a p = true ↔ p = some a.pin := by
  cases p <;> simp [verifyPIN]

/-- C1: the claimed invariant `cashBalance ≥ 0` for every state reachable from
registration by ledger operations is FALSE on the code: `manageForexWallet`
never checks conversion amounts for positivity, so one `convertFromForeign`
of `-2000` EUR on a freshly registered account (balance 1000, zero holdings)
is accepted (`-2000 ≤ 0` holdings) and drives the cash balance to
`1000 + (-2000) * 1.10 = -1200 < 0`. -/
theorem c1_negative_balance_reachable :
    (runOps (initializeAccount "alice" 1234)
      [Op.fromForeign CurrencyType.eur (-2000)]).balance = -1200 ∧
    (runOps (initializeAccount "alice" 1234)
      [Op.fromForeign CurrencyType.eur (-2000)]).balance < 0 := by
  norm_num [runOps, applyOp, convertFromForeign, initializeAccount, exchangeRates,
    STARTING_BALANCE]

/-- C6: the claimed precondition check `usdAmount > 0 → InvalidAmount failure`
is ABSENT from the code: `convertToForeign` with the negative amount `-50` on
a freshly registered account succeeds, credits the cash balance to `1050`, and
leaves the EUR holdings negative (`-50 / 1.10 = -500/11`), instead of failing
with an invalid-amount error and leaving the account unchanged. -/
theorem c6_no_positivity_check :
    (convertToForeign (initializeAccount "alice" 1234) CurrencyType.eur (-50)).1 =
      ErrorCode.success ∧
    (convertToForeign (initializeAccount "alice" 1234) CurrencyType.eur (-50)).2.balance =
      1050 ∧
    (convertToForeign (initializeAccount "alice" 1234) CurrencyType.eur (-50)).2.eur =
      -500 / 11 := by
  norm_num [convertToForeign, initializeAccount, exchangeRates, STARTING_BALANCE]

/-- C2: registration fails with the duplicate-account error whenever some
existing account shares the name or the PIN (either collision alone), and
otherwise (below capacity) appends a new account with the starting balance
1000, zero loan, zero asset and currency holdings, persisting the full new
registry before returning. -/
theorem c2_register_spec (st : BankState) (name : String) (pin : Int)
    (hlen : st.accounts.length < MAX_ACCOUNTS) :
    ((∃ a ∈ st.accounts, a.name = name ∨ a.pin = pin) →
        createAccount st name pin = (ErrorCode.duplicateAccount, st)) ∧
    ((∀ a ∈ st.accounts, a.name ≠ name ∧ a.pin ≠ pin) →
        createAccount st name pin =
          (ErrorCode.success,
           { accounts := st.accounts ++ [initializeAccount name pin],
             file := some ((st.accounts ++ [initializeAccount name pin]).length,
                           st.accounts ++ [initializeAccount name pin]) }) ∧
        (initializeAccount name pin).balance = STARTING_BALANCE ∧
        (initializeAccount name pin).loan = 0 ∧
        (initializeAccount name pin).crypto = 0 ∧
        (initializeAccount name pin).gold = 0 ∧
        (initializeAccount name pin).silver = 0 ∧
        (initializeAccount name pin).eur = 0 ∧
        (initializeAccount name pin).gbp = 0 ∧
        (initializeAccount name pin).inr = 0) := by
  have hcap : ¬ MAX_ACCOUNTS ≤ st.accounts.length := Nat.not_le.mpr hlen
  constructor
  · intro hex
    have hdup : accountExists st.accounts name pin = true :=
      (accountExists_iff st.accounts name pin).mpr hex
    simp [createAccount, hcap, hdup]
  · intro hnone
    have hdup : accountExists st.accounts name pin = false := by
      rw [Bool.eq_false_iff]
      intro hc
      obtain ⟨a, ha, hor⟩ := (accountExists_iff st.accounts name pin).mp hc
      rcases hor with h | h
      · exact (hnone a ha).1 h
      · exact (hnone a ha).2 h
    refine ⟨?_, rfl, rfl, rfl, rfl, rfl, rfl, rfl, rfl⟩
    simp [createAccount, hcap, hdup, saveAccounts]

/-- C2 witness: registering "alice" with PIN 2222 alongside one existing
account "bob"/1111 succeeds and persists the two-account registry. -/
theorem c2_register_spec_witness :
    ([bobAccount].length < MAX_ACCOUNTS) ∧
    createAccount ⟨[bobAccount], none⟩ "alice" 2222 =
      (ErrorCode.success,
       { accounts := [bobAccount, initializeAccount "alice" 2222],
         file := some (2, [bobAccount, initializeAccount "alice" 2222]) }) := by
  refine ⟨by norm_num [MAX_ACCOUNTS], ?_⟩
  have h := (c2_register_spec ⟨[bobAccount], none⟩ "alice" 2222
      (by norm_num [MAX_ACCOUNTS])).2 (by
    intro a ha
    simp only [List.mem_singleton] at ha
    subst ha
    refine ⟨by decide, by decide⟩)
  simpa using h.1

/-- C3: at full capacity (100 accounts) registration is refused and the state
is unchanged, but via the generic `ERROR_INVALID_INPUT` code: the `ErrorCode`
enum has no distinct capacity-exceeded value. -/
theorem c3_capacity_generic_error (st : BankState) (name : String) (pin : Int)
    (hfull : st.accounts.length = MAX_ACCOUNTS) :
    createAccount st name pin = (ErrorCode.invalidInput, st) := by
  simp [createAccount, hfull]

/-- C3 counterexample to distinctness: the error returned for a full registry
is literally the same `ErrorCode` the engine returns for a malformed amount
(`depositCash 0`), so the failure is not reported through a distinct
capacity code. -/
theorem c3_counterexample :
    (createAccount ⟨fullRegistry, none⟩ "alice" 2222).1 = ErrorCode.invalidInput ∧
    (depositCash bobAccount 0).1 = ErrorCode.invalidInput ∧
    (createAccount ⟨fullRegistry, none⟩ "alice" 2222).1 = (depositCash bobAccount 0).1 := by
  refine ⟨?_, by norm_num [depositCash], ?_⟩ <;>
    simp [createAccount, fullRegistry, depositCash, MAX_ACCOUNTS]

/-- C3 witness: the refusal at the concrete full registry of 100 accounts. -/
theorem c3_capacity_generic_error_witness :
    (fullRegistry.length = MAX_ACCOUNTS) ∧
    createAccount ⟨fullRegistry, none⟩ "alice" 2222 =
      (ErrorCode.invalidInput, ⟨fullRegistry, none⟩) :=
  ⟨by simp [fullRegistry],
   c3_capacity_generic_error ⟨fullRegistry, none⟩ "alice" 2222 (by simp [fullRegistry])⟩

/-- C4: on an account with a non-negative balance, withdrawal of more than the
balance fails with the insufficient-funds error, a non-positive amount fails
with the invalid-input error, and (for an otherwise valid amount) a wrong
re-entered PIN fails with the invalid-PIN error; every failure returns the
account with no field changed. -/
theorem c4_withdraw_failures (a : Account) (amount : ℚ) (pinInput : Option Int)
    (hbal : 0 ≤ a.balance) :
    (a.balance < amount →
        withdrawCash a amount pinInput = (ErrorCode.insufficientFunds, a)) ∧
    (amount ≤ 0 →
        withdrawCash a amount pinInput = (ErrorCode.invalidInput, a)) ∧
    (0 < amount → amount ≤ a.balance → pinInput ≠ some a.pin →
        withdrawCash a amount pinInput = (ErrorCode.invalidPin, a)) := by
  refine ⟨?_, ?_, ?_⟩
  · intro hlt
    have hpos : ¬ amount ≤ 0 := by linarith
    simp [withdrawCash, hpos, hlt]
  · intro hle
    simp [withdrawCash, hle]
  · intro hpos hle hpin
    have h1 : ¬ amount ≤ 0 := not_le.mpr hpos
    have h2 : ¬ a.balance < amount := not_lt.mpr hle
    have hv : verifyPIN a pinInput = false := by
      rw [Bool.eq_false_iff]
      intro hc
      exact hpin ((verifyPIN_eq_true_iff a pinInput).mp hc)
    simp [withdrawCash, h1, h2, hv]

/-- C4 witness: withdrawing 2000 from the fresh account with balance 1000
fails with the insufficient-funds error and leaves the account unchanged. -/
theorem c4_withdraw_failures_witness :
    (0 ≤ bobAccount.balance) ∧
    withdrawCash bobAccount 2000 (some 1111) = (ErrorCode.insufficientFunds, bobAccount) :=
  ⟨by norm_num [bobAccount, initializeAccount, STARTING_BALANCE],
   (c4_withdraw_failures bobAccount 2000 (some 1111)
      (by norm_num [bobAccount, initializeAccount, STARTING_BALANCE])).1
    (by norm_num [bobAccount, initializeAccount, STARTING_BALANCE])⟩

/-- C5 counterexample: on an account with an outstanding loan of 500 and
balance 1500, a second visit to the loan operation (PIN correct, confirmation
given) does not fail with any loan-already-active error — it repays the loan,
setting the loan to 0 and the balance to 1000. -/
theorem c5_counterexample :
    (manageLoan { bobAccount with loan := LOAN_AMOUNT, balance := 1500 }
        (some 1111) (some 1)).1 = LoanOutcome.loanRepaid ∧
    (manageLoan { bobAccount with loan := LOAN_AMOUNT, balance := 1500 }
        (some 1111) (some 1)).2.loan = 0 ∧
    (manageLoan { bobAccount with loan := LOAN_AMOUNT, balance := 1500 }
        (some 1111) (some 1)).2.balance = 1000 := by
  norm_num [manageLoan, verifyPIN, bobAccount, initializeAccount, LOAN_AMOUNT]

/-- C5 (amended): with no outstanding loan, a verified PIN and confirmation,
the loan operation sets the loan to the fixed amount 500 and credits the
balance by exactly that amount; with a loan outstanding the operation never
issues another loan — it either fully repays (loan becomes 0) or leaves the
account exactly as it was (there is no distinct loan-already-active error). -/
theorem c5_loan_lifecycle (a : Account) (pinInput confirm : Option Int) :
    (pinInput = some a.pin → a.loan = 0 → confirm = some 1 →
        manageLoan a pinInput confirm =
          (LoanOutcome.loanTaken,
           { a with loan := LOAN_AMOUNT, balance := a.balance + LOAN_AMOUNT })) ∧
    (a.loan ≠ 0 →
        (manageLoan a pinInput confirm).2.loan = 0 ∨
        (manageLoan a pinInput confirm).2 = a) := by
  constructor
  · intro hpin hloan hconf
    have hv : verifyPIN a pinInput = true := (verifyPIN_eq_true_iff a pinInput).mpr hpin
    simp [manageLoan, hv, hloan, hconf]
  · intro hloan
    by_cases hv : verifyPIN a pinInput = true
    · by_cases hrich : a.loan ≤ a.balance
      · by_cases hconf : confirm = some 1
        · left
          simp [manageLoan, hv, hloan, hrich, hconf]
        · right
          simp [manageLoan, hv, hloan, hrich, hconf]
      · right
        simp [manageLoan, hv, hloan, hrich]
    · right
      simp only [Bool.not_eq_true] at hv
      simp [manageLoan, hv]

/-- C5 witness: the fresh account "bob" (loan 0, balance 1000) with the right
PIN and confirmation is granted the 500 loan. -/
theorem c5_loan_lifecycle_witness :
    manageLoan bobAccount (some 1111) (some 1) =
      (LoanOutcome.loanTaken,
       { bobAccount with loan := LOAN_AMOUNT, balance := bobAccount.balance + LOAN_AMOUNT }) :=
  (c5_loan_lifecycle bobAccount (some 1111) (some 1)).1 rfl rfl rfl

/-- C7: with the balance covering the fixed purchase amount 100 and the PIN
verified, an asset menu choice outside 1-3 refunds the tentative debit and
fails with the invalid-input error; the returned account equals the original
in every field (balance and all holdings). -/
theorem c7_refund_on_invalid_choice (a : Account) (prices : MarketPrices) (c : Int)
    (hbal : ASSET_PURCHASE_AMOUNT ≤ a.balance)
    (h1 : c ≠ 1) (h2 : c ≠ 2) (h3 : c ≠ 3) :
    purchaseAsset a prices (some a.pin) (some c) = (ErrorCode.invalidInput, a) := by
  have hb : ¬ a.balance < ASSET_PURCHASE_AMOUNT := not_lt.mpr hbal
  have hv : verifyPIN a (some a.pin) = true := (verifyPIN_eq_true_iff a (some a.pin)).mpr rfl
  cases a with
  | mk nm pn bal ln cr gd sl eu gb ir =>
    have hrefund : bal - ASSET_PURCHASE_AMOUNT + ASSET_PURCHASE_AMOUNT = bal := by ring
    simp only [purchaseAsset, hb, if_false, hv, Bool.not_true, Bool.false_eq_true,
      if_neg, h1, h2, h3, ite_false, hrefund]

/-- C7 witness: the fresh account (balance 1000), the initial market prices
and the out-of-range choice 7 leave the account exactly as it was. -/
theorem c7_refund_on_invalid_choice_witness :
    (ASSET_PURCHASE_AMOUNT ≤ bobAccount.balance) ∧
    purchaseAsset bobAccount marketPrices (some bobAccount.pin) (some 7) =
      (ErrorCode.invalidInput, bobAccount) :=
  ⟨by norm_num [ASSET_PURCHASE_AMOUNT, bobAccount, initializeAccount, STARTING_BALANCE],
   c7_refund_on_invalid_choice bobAccount marketPrices 7
     (by norm_num [ASSET_PURCHASE_AMOUNT, bobAccount, initializeAccount, STARTING_BALANCE])
     (by decide) (by decide) (by decide)⟩

/-- C8: converting a positive USD amount within the balance to EUR and then
converting back exactly the unit amount just credited (at the static exchange
rate) succeeds and restores the cash balance to its pre-conversion value. -/
theorem c8_forex_round_trip (a : Account) (amount : ℚ)
    (_hpos : 0 < amount) (hle : amount ≤ a.balance) (heur : 0 ≤ a.eur) :
    (convertFromForeign (convertToForeign a CurrencyType.eur amount).2 CurrencyType.eur
        (amount / exchangeRates.eur)).1 = ErrorCode.success ∧
    (convertFromForeign (convertToForeign a CurrencyType.eur amount).2 CurrencyType.eur
        (amount / exchangeRates.eur)).2.balance = a.balance := by
  have hb : ¬ a.balance < amount := not_lt.mpr hle
  have hstep : (convertToForeign a CurrencyType.eur amount).2 =
      { a with balance := a.balance - amount,
               eur := a.eur + amount / exchangeRates.eur } := by
    simp [convertToForeign, hb]
  rw [hstep]
  have hcond : amount / exchangeRates.eur ≤ a.eur + amount / exchangeRates.eur := by
    linarith
  have hr : exchangeRates.eur ≠ 0 := by norm_num [exchangeRates]
  have hcalc : a.balance - amount + amount / exchangeRates.eur * exchangeRates.eur =
      a.balance := by
    rw [div_mul_cancel₀ amount hr]
    ring
  constructor
  · simp [convertFromForeign, hcond]
  · simp [convertFromForeign, hcond, hcalc]

/-- C8 witness: converting 50 USD to EUR on the fresh account and back again
restores the balance of 1000. -/
theorem c8_forex_round_trip_witness :
    ((0 : ℚ) < 50 ∧ (50 : ℚ) ≤ bobAccount.balance ∧ (0 : ℚ) ≤ bobAccount.eur) ∧
    (convertFromForeign (convertToForeign bobAccount CurrencyType.eur 50).2 CurrencyType.eur
        (50 / exchangeRates.eur)).1 = ErrorCode.success ∧
    (convertFromForeign (convertToForeign bobAccount CurrencyType.eur 50).2 CurrencyType.eur
        (50 / exchangeRates.eur)).2.balance = bobAccount.balance :=
  ⟨⟨by norm_num,
    by norm_num [bobAccount, initializeAccount, STARTING_BALANCE],
    by norm_num [bobAccount, initializeAccount]⟩,
   c8_forex_round_trip bobAccount 50 (by norm_num)
     (by norm_num [bobAccount, initializeAccount, STARTING_BALANCE])
     (by norm_num [bobAccount, initializeAccount])⟩

/-- C9: persisting any registry of at most 100 accounts and then loading the
resulting file succeeds and reproduces exactly the saved account list, every
field included; with the empty registry this yields the empty registry. -/
theorem c9_save_load_round_trip (st : BankState) (prev : List Account)
    (_hlen : st.accounts.length ≤ MAX_ACCOUNTS) :
    loadAccounts (saveAccounts st).2.file prev = (ErrorCode.success, st.accounts) := by
  simp [saveAccounts, loadAccounts]

/-- C9 witness: saving the empty registry and loading it back yields the empty
registry. -/
theorem c9_save_load_round_trip_witness :
    (([] : List Account).length ≤ MAX_ACCOUNTS) ∧
    loadAccounts (saveAccounts ⟨[], none⟩).2.file [] = (ErrorCode.success, []) :=
  ⟨by norm_num [MAX_ACCOUNTS],
   c9_save_load_round_trip ⟨[], none⟩ [] (by norm_num [MAX_ACCOUNTS])⟩

/-- Every ledger operation leaves the account's name and PIN unchanged. -/
theorem applyOp_preserves_identity (a : Account) (op : Op) :
    (applyOp a op).name = a.name ∧ (applyOp a op).pin = a.pin := by
  cases op with
  | deposit amount =>
    simp only [applyOp, depositCash]
    split <;> exact ⟨rfl, rfl⟩
  | withdraw amount pinInput =>
    simp only [applyOp, withdrawCash]
    repeat' split
    all_goals exact ⟨rfl, rfl⟩
  | purchase prices pinInput choice =>
    simp only [applyOp, purchaseAsset]
    repeat' split
    all_goals exact ⟨rfl, rfl⟩
  | loanOp pinInput confirm =>
    simp only [applyOp, manageLoan]
    repeat' split
    all_goals exact ⟨rfl, rfl⟩
  | interest => exact ⟨rfl, rfl⟩
  | toForeign c amount =>
    cases c <;> simp only [applyOp, convertToForeign] <;> split <;> exact ⟨rfl, rfl⟩
  | fromForeign c amount =>
    cases c <;> simp only [applyOp, convertFromForeign] <;> split <;> exact ⟨rfl, rfl⟩

/-- C10: a ledger operation performed at registry index `i` leaves every other
registry entry untouched, and the selected account's name and PIN are also
unmodified by every operation. -/
theorem c10_frame (regs : List Account) (i j : Nat) (op : Op) (a : Account)
    (hj : j ≠ i) :
    (applyOpAt regs i op)[j]? = regs[j]? ∧
    (applyOp a op).name = a.name ∧ (applyOp a op).pin = a.pin := by
  refine ⟨?_, applyOp_preserves_identity a op⟩
  unfold applyOpAt
  cases h : regs[i]? with
  | none => rfl
  | some b => exact List.getElem?_set_ne (fun he => hj he.symm)

/-- C10 witness: a deposit at index 0 of a two-account registry leaves the
entry at index 1 untouched and preserves the selected account's identity. -/
theorem c10_frame_witness :
    ((1 : Nat) ≠ 0) ∧
    ((applyOpAt [bobAccount, initializeAccount "alice" 2222] 0 (Op.deposit 5))[1]? =
        [bobAccount, initializeAccount "alice" 2222][1]? ∧
      (applyOp bobAccount (Op.deposit 5)).name = bobAccount.name ∧
      (applyOp bobAccount (Op.deposit 5)).pin = bobAccount.pin) :=
  ⟨by decide,
   c10_frame [bobAccount, initializeAccount "alice" 2222] 0 1 (Op.deposit 5) bobAccount
     (by decide)⟩
